import Mathlib

/-!
Shallow embedding of the Rock-Paper-Scissors-Plus rules engine
(`game_logic.py` and the tool layer of `game_tools.py`), together with
theorems checking the design documentation against the code.

Python strings are modelled as Lean `String` (ASCII fragment):
`str.lower()` becomes `pyLower` (built on `Char.toLower`, which performs
the same A–Z shift) and `str.strip()` becomes `pyStrip` over the
character list.  The module-level mutable `game_state` of
`game_tools.py` is made explicit: each tool takes the current
`GameState` and returns its result paired with the successor state.
The randomness of `get_bot_move` is exposed as an explicit `bot_move`
argument to `resolve_round_tool`.
-/

namespace RPSPlus

/-- Canonical moves, mirroring `Move = Literal["rock", "paper", "scissors", "bomb"]`. -/
inductive Move where
  | rock
  | paper
  | scissors
  | bomb
deriving DecidableEq

/-- Round outcomes, mirroring `Outcome = Literal["user", "bot", "draw"]`. -/
inductive Outcome where
  | user
  | bot
  | draw
deriving DecidableEq

/-- The `GameState` dataclass of `game_logic.py`. -/
structure GameState where
  round_number : Nat
  user_score : Nat
  bot_score : Nat
  user_bomb_used : Bool
  bot_bomb_used : Bool
  game_over : Bool
deriving DecidableEq

/-- `GameState()` with the dataclass defaults: all zeros / false. -/
def GameState.init : GameState :=
  { round_number := 0, user_score := 0, bot_score := 0,
    user_bomb_used := false, bot_bomb_used := false, game_over := false }

/-- ASCII model of the whitespace characters stripped by Python `str.strip()`. -/
def isPySpace (c : Char) : Bool :=
  c = ' ' || c = '\t' || c = '\n' || c = '\x0d' || c = '\x0b' || c = '\x0c'

/-- ASCII model of Python `str.lower()`: lowercase every character. -/
def pyLower (s : String) : String :=
  String.mk (s.data.map Char.toLower)

/-- ASCII model of Python `str.strip()`: drop whitespace from both ends. -/
def pyStrip (s : String) : String :=
  String.mk (((s.data.dropWhile isPySpace).reverse.dropWhile isPySpace).reverse)

/-- The list `["rock", "paper", "scissors", "bomb"]` from `is_valid_move`. -/
def validMoves : List String := ["rock", "paper", "scissors", "bomb"]

/-- `is_valid_move(move)`: `move.lower() in ["rock", "paper", "scissors", "bomb"]`. -/
def is_valid_move (move : String) : Bool :=
  decide (pyLower move ∈ validMoves)

/-- `normalize_move(move)`: `move.lower()`. -/
def normalize_move (move : String) : String :=
  pyLower move

/-- `can_use_bomb(player, state)`: the if/elif chain of `game_logic.py`. -/
def can_use_bomb (player : String) (state : GameState) : Bool :=
  if player = "user" then !state.user_bomb_used
  else if player = "bot" then !state.bot_bomb_used
  else false

/-- The `wins` dictionary inside `resolve_round`; `bomb` is not a key,
so looking it up yields `none` (that lookup is unreachable in the code). -/
def wins : Move → Option Move
  | .rock => some .scissors
  | .scissors => some .paper
  | .paper => some .rock
  | .bomb => none

/-- `resolve_round(user_move, bot_move)` from `game_logic.py`, branch for branch. -/
def resolve_round (user_move bot_move : Move) : Outcome :=
  if user_move = bot_move then .draw
  else if user_move = .bomb ∧ bot_move = .bomb then .draw
  else if user_move = .bomb then .user
  else if bot_move = .bomb then .bot
  else if wins user_move = some bot_move then .user
  else .bot

/-- `update_score(state, winner)`: increment the winner's score. -/
def update_score (state : GameState) (winner : Outcome) : GameState :=
  if winner = .user then { state with user_score := state.user_score + 1 }
  else if winner = .bot then { state with bot_score := state.bot_score + 1 }
  else state

/-- `mark_bomb_used(state, player, move)`: set the named player's bomb flag
when the move is `bomb`. -/
def mark_bomb_used (state : GameState) (player : String) (move : Move) : GameState :=
  if move = .bomb then
    if player = "user" then { state with user_bomb_used := true }
    else if player = "bot" then { state with bot_bomb_used := true }
    else state
  else state

/-- `is_game_over(state)`: `state.round_number >= 3`. -/
def is_game_over (state : GameState) : Bool :=
  decide (state.round_number ≥ 3)

/-- `get_final_result(state)`: compare the scores. -/
def get_final_result (state : GameState) : String :=
  if state.user_score > state.bot_score then "User wins"
  else if state.bot_score > state.user_score then "Bot wins"
  else "Draw"

/-- The `{valid, move, reason}` dictionary returned by `validate_move`. -/
structure ValidateResult where
  valid : Bool
  move : String
  reason : String
deriving DecidableEq

/-- `validate_move(user_input)` from `game_tools.py`.  The global
`game_state` it reads is passed in explicitly and returned unchanged
alongside the result, making the (absent) state effect visible. -/
def validate_move (user_input : String) (state : GameState) : ValidateResult × GameState :=
  let normalized := pyLower (pyStrip user_input)
  if is_valid_move normalized = false then
    (⟨false, normalized,
      "Invalid move \x27" ++ normalized ++ "\x27. Valid moves: rock, paper, scissors, bomb"⟩,
     state)
  else
    let move := normalize_move normalized
    if move = "bomb" ∧ can_use_bomb "user" state = false then
      (⟨false, move, "You have already used your bomb!"⟩, state)
    else
      (⟨true, move, "Valid move"⟩, state)

/-- The dictionary returned by `resolve_round_tool`. -/
structure RoundResult where
  user_move : Move
  bot_move : Move
  winner : Outcome
  user_score : Nat
  bot_score : Nat
  round : Nat
  game_over : Bool
  user_bomb_available : Bool
  bot_bomb_available : Bool
deriving DecidableEq

/-- `resolve_round_tool(user_move)` from `game_tools.py`: mark bombs,
resolve the winner, update the score, increment the round, recompute
`game_over`.  The bot move drawn by `get_bot_move` is an explicit
argument; the global `game_state` is threaded through. -/
def resolve_round_tool (state : GameState) (user_move bot_move : Move) :
    RoundResult × GameState :=
  let s1 := mark_bomb_used state "user" user_move
  let s2 := mark_bomb_used s1 "bot" bot_move
  let winner := resolve_round user_move bot_move
  let s3 := update_score s2 winner
  let s4 := { s3 with round_number := s3.round_number + 1 }
  let s5 := if is_game_over s4 then { s4 with game_over := true } else s4
  (⟨user_move, bot_move, winner, s5.user_score, s5.bot_score, s5.round_number,
    s5.game_over, !s5.user_bomb_used, !s5.bot_bomb_used⟩, s5)

/-- The state snapshot returned by `update_game_state_tool`. -/
structure StateSnapshot where
  round : Nat
  user_score : Nat
  bot_score : Nat
  user_bomb_available : Bool
  bot_bomb_available : Bool
  game_over : Bool
deriving DecidableEq

/-- `update_game_state_tool(action)` from `game_tools.py`: `reset`
replaces the state with a fresh `GameState()`; any other action leaves
it unchanged; either way a snapshot is returned. -/
def update_game_state_tool (action : String) (state : GameState) :
    StateSnapshot × GameState :=
  let state := if action = "reset" then GameState.init else state
  (⟨state.round_number, state.user_score, state.bot_score,
    !state.user_bomb_used, !state.bot_bomb_used, state.game_over⟩, state)

/-- States reachable from the fresh state by round resolutions (with any
canonical moves) and `update_game_state_tool` calls. -/
inductive Reachable : GameState → Prop where
  | init : Reachable GameState.init
  | step (u b : Move) {s : GameState} :
      Reachable s → Reachable (resolve_round_tool s u b).2
  | tool (a : String) {s : GameState} :
      Reachable s → Reachable (update_game_state_tool a s).2

/-- Reference dominance relation, written out from the design document:
equal moves draw, a lone bomb wins, otherwise the rock/scissors/paper
cycle decides. -/
def resolve_round_reference (u b : Move) : Outcome :=
  if u = b then .draw
  else if u = .bomb then .user
  else if b = .bomb then .bot
  else if (u = .rock ∧ b = .scissors) ∨ (u = .scissors ∧ b = .paper) ∨
          (u = .paper ∧ b = .rock) then .user
  else .bot

/-- Field-by-field description of the state produced by one
`resolve_round_tool` call: bombs marked, winner's score bumped, round
incremented, `game_over` refreshed against the new round number. -/
theorem resolve_round_tool_state (s : GameState) (u b : Move) :
    (resolve_round_tool s u b).2 =
      { round_number := s.round_number + 1,
        user_score := if resolve_round u b = .user then s.user_score + 1 else s.user_score,
        bot_score := if resolve_round u b = .bot then s.bot_score + 1 else s.bot_score,
        user_bomb_used := if u = .bomb then true else s.user_bomb_used,
        bot_bomb_used := if b = .bomb then true else s.bot_bomb_used,
        game_over := if s.round_number + 1 ≥ 3 then true else s.game_over } := by
  cases u <;> cases b <;>
    simp [resolve_round_tool, mark_bomb_used, update_score, resolve_round, wins,
      is_game_over] <;>
    split <;> simp_all

/-- The result dictionary reports the post-increment round number. -/
theorem resolve_round_tool_result_round (s : GameState) (u b : Move) :
    ((resolve_round_tool s u b).1).round = ((resolve_round_tool s u b).2).round_number := rfl

/-- Documented per-state invariants: the scores sum to at most the round
number, and `game_over` tracks `round_number >= 3`. -/
def state_inv (s : GameState) : Prop :=
  s.user_score + s.bot_score ≤ s.round_number ∧ (s.game_over = true ↔ s.round_number ≥ 3)

/-- A bomb flag that is set stays set across a resolution step from `s`. -/
def bomb_flags_monotone (s : GameState) (u b : Move) : Prop :=
  (s.user_bomb_used = true → ((resolve_round_tool s u b).2).user_bomb_used = true) ∧
  (s.bot_bomb_used = true → ((resolve_round_tool s u b).2).bot_bomb_used = true)

/-- Bomb flags never revert, from any state whatsoever. -/
theorem bomb_flags_monotone_all (s : GameState) (u b : Move) :
    bomb_flags_monotone s u b := by
  constructor <;> intro h <;> rw [resolve_round_tool_state] <;> simp [h]

/-- Full effect of one resolution step: round up by one, the winner's
score up by one, bomb flags recorded, and the result dictionary reporting
the new round number. -/
def round_effects (s : GameState) (u b : Move) : Prop :=
  ((resolve_round_tool s u b).2).round_number = s.round_number + 1 ∧
  ((resolve_round_tool s u b).2).user_score =
    (if resolve_round u b = .user then s.user_score + 1 else s.user_score) ∧
  ((resolve_round_tool s u b).2).bot_score =
    (if resolve_round u b = .bot then s.bot_score + 1 else s.bot_score) ∧
  ((resolve_round_tool s u b).2).user_bomb_used =
    (if u = .bomb then true else s.user_bomb_used) ∧
  ((resolve_round_tool s u b).2).bot_bomb_used =
    (if b = .bomb then true else s.bot_bomb_used) ∧
  ((resolve_round_tool s u b).1).round = s.round_number + 1

/-- Every resolution step, from any state, has its full effect. -/
theorem round_effects_all (s : GameState) (u b : Move) : round_effects s u b := by
  refine ⟨?_, ?_, ?_, ?_, ?_, ?_⟩ <;>
    (try rw [resolve_round_tool_result_round]) <;> rw [resolve_round_tool_state]

/-- C2: along any sequence of round resolutions and state-tool calls from
the fresh state, the scores sum to at most the round number, `game_over`
holds exactly when the round number has reached 3, and a set bomb flag is
never cleared by a further step. -/
theorem reachable_state_invariants (s : GameState) (h : Reachable s) (u b : Move) :
    state_inv s ∧ bomb_flags_monotone s u b := by
  refine ⟨?_, bomb_flags_monotone_all s u b⟩
  induction h with
  | init => simp [state_inv, GameState.init]
  | step u' b' h ih =>
      rw [resolve_round_tool_state]
      unfold state_inv at ih ⊢
      obtain ⟨ihs, ihg⟩ := ih
      refine ⟨?_, ?_⟩
      · simp only
        split_ifs <;> first | omega | simp_all
      · simp only
        split_ifs with hc
        · simp [hc]
        · rw [ihg]
          omega
  | tool a h ih =>
      simp only [update_game_state_tool]
      split
      · simp [state_inv, GameState.init]
      · exact ih

/-- Witness for C2 at the state reached by one bomb round. -/
theorem reachable_state_invariants_witness :
    state_inv (resolve_round_tool GameState.init .bomb .rock).2 ∧
    bomb_flags_monotone (resolve_round_tool GameState.init .bomb .rock).2 .rock .rock :=
  reachable_state_invariants _ (Reachable.step .bomb .rock Reachable.init) .rock .rock

/-- C3: resolving a round after `game_over` is not rejected: the step has
exactly the same effect as before game end (bombs marked, score applied,
round incremented by one) and `game_over` stays true. -/
theorem resolve_round_tool_after_game_over (s : GameState) (u b : Move)
    (h : s.game_over = true) :
    round_effects s u b ∧ ((resolve_round_tool s u b).2).game_over = true := by
  refine ⟨round_effects_all s u b, ?_⟩
  rw [resolve_round_tool_state]
  simp only
  split <;> simp [h]

/-- Witness for C3 at a finished-game state. -/
theorem resolve_round_tool_after_game_over_witness :
    (⟨3, 2, 1, true, false, true⟩ : GameState).game_over = true ∧
    (round_effects ⟨3, 2, 1, true, false, true⟩ .rock .scissors ∧
      ((resolve_round_tool ⟨3, 2, 1, true, false, true⟩ .rock .scissors).2).game_over = true) :=
  ⟨rfl, resolve_round_tool_after_game_over ⟨3, 2, 1, true, false, true⟩ .rock .scissors rfl⟩

/-- C1: `resolve_round` coincides with the reference dominance relation on
all sixteen canonical pairs: equal moves (bomb included) draw, a lone bomb
wins for its side, and otherwise the rock-scissors-paper cycle decides. -/
theorem resolve_round_matches_reference (u b : Move) :
    resolve_round u b = resolve_round_reference u b := by
  cases u <;> cases b <;> rfl

/-- C5 counterexample: `is_valid_move` does not trim, so the claimed
equivalence with the trimmed-and-lowercased form fails at `"  rock "`,
whose trimmed lowercase form is the canonical `"rock"`. -/
theorem is_valid_move_trim_counterexample :
    ¬ (is_valid_move "  rock " = true ↔ pyLower (pyStrip "  rock ") ∈ validMoves) := by
  decide

/-- C5 (amended): `is_valid_move raw` is true iff the lowercased — but
untrimmed — input is one of the four canonical move names; surrounding
whitespace is stripped by the caller (`validate_move`), not here. -/
theorem is_valid_move_lower_iff (raw : String) :
    is_valid_move raw = true ↔ pyLower raw ∈ validMoves := by
  simp [is_valid_move]

/-- C6: `update_score` bumps exactly the winner's score by one and leaves
every other field — and on a draw, everything — unchanged. -/
theorem update_score_effects (s : GameState) :
    update_score s .user = { s with user_score := s.user_score + 1 } ∧
    update_score s .bot = { s with bot_score := s.bot_score + 1 } ∧
    update_score s .draw = s :=
  ⟨rfl, rfl, rfl⟩

/-- C7: `mark_bomb_used` with `bomb` sets the named player's flag and is
idempotent; with any other move it returns the state unchanged for every
player identifier. -/
theorem mark_bomb_used_idempotent_noop (s : GameState) (p : String) (m : Move)
    (hm : m ≠ .bomb) :
    mark_bomb_used (mark_bomb_used s p .bomb) p .bomb = mark_bomb_used s p .bomb ∧
    (mark_bomb_used s "user" .bomb).user_bomb_used = true ∧
    (mark_bomb_used s "bot" .bomb).bot_bomb_used = true ∧
    mark_bomb_used s p m = s := by
  refine ⟨?_, rfl, rfl, ?_⟩
  · simp only [mark_bomb_used]
    split_ifs <;> rfl
  · simp only [mark_bomb_used]
    rw [if_neg hm]

/-- Witness for C7 with player `"bot"` and non-bomb move `rock`. -/
theorem mark_bomb_used_idempotent_noop_witness :
    Move.rock ≠ Move.bomb ∧
    (mark_bomb_used (mark_bomb_used GameState.init "bot" .bomb) "bot" .bomb =
        mark_bomb_used GameState.init "bot" .bomb ∧
      (mark_bomb_used GameState.init "user" .bomb).user_bomb_used = true ∧
      (mark_bomb_used GameState.init "bot" .bomb).bot_bomb_used = true ∧
      mark_bomb_used GameState.init "bot" .rock = GameState.init) :=
  ⟨by decide, mark_bomb_used_idempotent_noop GameState.init "bot" .rock (by decide)⟩

/-- C8: `get_final_result` reports the score comparison at any state —
higher score wins, equal scores draw — with no dependence on
`round_number` or `game_over`. -/
theorem get_final_result_comparison (s : GameState) :
    (s.user_score > s.bot_score → get_final_result s = "User wins") ∧
    (s.bot_score > s.user_score → get_final_result s = "Bot wins") ∧
    (s.user_score = s.bot_score → get_final_result s = "Draw") := by
  unfold get_final_result
  refine ⟨fun h => ?_, fun h => ?_, fun h => ?_⟩
  · rw [if_pos h]
  · rw [if_neg (by omega), if_pos h]
  · rw [if_neg (by omega), if_neg (by omega)]

/-- Witness for C8, including a mid-match draw state. -/
theorem get_final_result_comparison_witness :
    ((2 : Nat) > 1 ∧ get_final_result ⟨3, 2, 1, true, false, true⟩ = "User wins") ∧
    ((2 : Nat) > 1 ∧ get_final_result ⟨3, 1, 2, false, true, true⟩ = "Bot wins") ∧
    ((1 : Nat) = 1 ∧ get_final_result ⟨2, 1, 1, false, false, false⟩ = "Draw") :=
  ⟨⟨by decide, (get_final_result_comparison ⟨3, 2, 1, true, false, true⟩).1 (by decide)⟩,
   ⟨by decide, (get_final_result_comparison ⟨3, 1, 2, false, true, true⟩).2.1 (by decide)⟩,
   ⟨by decide, (get_final_result_comparison ⟨2, 1, 1, false, false, false⟩).2.2 (by decide)⟩⟩

/-- C9: `can_use_bomb` is the negated bomb flag for `"user"` and `"bot"`
and is false — not an error — for every other identifier. -/
theorem can_use_bomb_spec (s : GameState) (p : String) (h1 : p ≠ "user") (h2 : p ≠ "bot") :
    can_use_bomb "user" s = !s.user_bomb_used ∧
    can_use_bomb "bot" s = !s.bot_bomb_used ∧
    can_use_bomb p s = false := by
  refine ⟨rfl, rfl, ?_⟩
  unfold can_use_bomb
  rw [if_neg h1, if_neg h2]

/-- Witness for C9 with the unknown identifier `"referee"`. -/
theorem can_use_bomb_spec_witness :
    ("referee" ≠ "user" ∧ "referee" ≠ "bot") ∧
    (can_use_bomb "user" GameState.init = !GameState.init.user_bomb_used ∧
      can_use_bomb "bot" GameState.init = !GameState.init.bot_bomb_used ∧
      can_use_bomb "referee" GameState.init = false) :=
  ⟨⟨by decide, by decide⟩,
   can_use_bomb_spec GameState.init "referee" (by decide) (by decide)⟩

/-- Converting a valid code point to a character and back is the identity. -/
theorem char_toNat_ofNat (n : Nat) (h : n.isValidChar) : (Char.ofNat n).toNat = n := by
  rw [Char.ofNat, dif_pos h]
  rfl

/-- Lowercasing a character twice is the same as lowercasing it once. -/
theorem toLower_toLower (c : Char) : c.toLower.toLower = c.toLower := by
  by_cases h : c.toNat ≥ 65 ∧ c.toNat ≤ 90
  · have hv : (c.toNat + 32).isValidChar := Or.inl (by omega)
    have h1 : c.toLower = Char.ofNat (c.toNat + 32) := by
      simp only [Char.toLower]
      rw [if_pos h]
    rw [h1]
    simp only [Char.toLower]
    rw [char_toNat_ofNat _ hv, if_neg (by omega)]
  · have h1 : c.toLower = c := by
      simp only [Char.toLower]
      rw [if_neg h]
    rw [h1, h1]

/-- `pyLower` is idempotent: a lowered string lowers to itself. -/
theorem pyLower_pyLower (s : String) : pyLower (pyLower s) = pyLower s := by
  unfold pyLower
  congr 1
  rw [List.map_map]
  exact List.map_congr_left fun c _ => toLower_toLower c

/-- A valid normalized move (with bomb still available when it is the
bomb) is accepted, echoing the normalized move name. -/
theorem validate_move_ok (input : String) (s : GameState)
    (h : pyLower (pyStrip input) ∈ validMoves)
    (hb : pyLower (pyStrip input) ≠ "bomb" ∨ s.user_bomb_used = false) :
    (validate_move input s).1 = ⟨true, pyLower (pyStrip input), "Valid move"⟩ := by
  simp only [validate_move, normalize_move]
  simp only [validMoves, List.mem_cons, List.not_mem_nil, or_false] at h
  rcases h with h | h | h | h <;> rw [h]
  · rw [if_neg (by decide), if_neg fun hc => absurd hc.1 (by decide)]
    exact rfl
  · rw [if_neg (by decide), if_neg fun hc => absurd hc.1 (by decide)]
    exact rfl
  · rw [if_neg (by decide), if_neg fun hc => absurd hc.1 (by decide)]
    exact rfl
  · rcases hb with hb | hb
    · exact absurd h hb
    · rw [if_neg (by decide),
        if_neg fun hc => absurd hc.2
          (by rw [show can_use_bomb "user" s = !s.user_bomb_used from rfl, hb]; decide)]
      exact rfl

/-- A string whose normalized form is not a move name is rejected with a
reason naming the valid moves. -/
theorem validate_move_invalid (input : String) (s : GameState)
    (h : pyLower (pyStrip input) ∉ validMoves) :
    (validate_move input s).1 =
      ⟨false, pyLower (pyStrip input),
        "Invalid move \x27" ++ pyLower (pyStrip input) ++
          "\x27. Valid moves: rock, paper, scissors, bomb"⟩ := by
  have hv : is_valid_move (pyLower (pyStrip input)) = false := by
    unfold is_valid_move
    rw [pyLower_pyLower]
    exact decide_eq_false h
  simp only [validate_move]
  rw [if_pos hv]

/-- Playing `bomb` with the user's bomb already spent is rejected with the
prior-use reason. -/
theorem validate_move_bomb_spent (input : String) (s : GameState)
    (h : pyLower (pyStrip input) = "bomb") (hub : s.user_bomb_used = true) :
    (validate_move input s).1 = ⟨false, "bomb", "You have already used your bomb!"⟩ := by
  simp only [validate_move, normalize_move]
  rw [h]
  rw [if_neg (by decide),
    if_pos ⟨by decide,
      by rw [show can_use_bomb "user" s = !s.user_bomb_used from rfl, hub]; rfl⟩]
  exact rfl

/-- C4: `validate_move` always returns a structured result: it accepts a
normalized move name (bomb only while unspent) echoing that name, rejects
non-moves with a reason naming the valid moves, rejects a spent bomb with
a prior-use reason, and in particular accepts `"  ROCK "` as `rock`. -/
theorem validate_move_spec (input : String) (s : GameState) :
    (pyLower (pyStrip input) ∈ validMoves →
      (pyLower (pyStrip input) ≠ "bomb" ∨ s.user_bomb_used = false) →
      (validate_move input s).1 = ⟨true, pyLower (pyStrip input), "Valid move"⟩) ∧
    (pyLower (pyStrip input) ∉ validMoves →
      (validate_move input s).1 =
        ⟨false, pyLower (pyStrip input),
          "Invalid move \x27" ++ pyLower (pyStrip input) ++
            "\x27. Valid moves: rock, paper, scissors, bomb"⟩) ∧
    (pyLower (pyStrip input) = "bomb" → s.user_bomb_used = true →
      (validate_move input s).1 = ⟨false, "bomb", "You have already used your bomb!"⟩) ∧
    (validate_move "  ROCK " s).1 = ⟨true, "rock", "Valid move"⟩ :=
  ⟨fun h hb => validate_move_ok input s h hb,
   fun h => validate_move_invalid input s h,
   fun h hub => validate_move_bomb_spent input s h hub,
   by
    have h := validate_move_ok "  ROCK " s (by decide) (Or.inl (by decide))
    rw [show pyLower (pyStrip "  ROCK ") = "rock" by decide] at h
    exact h⟩

/-- Witness for C4: `"lizard"` is rejected and `"  ROCK "` accepted,
against the fresh state. -/
theorem validate_move_spec_witness :
    (pyLower (pyStrip "lizard") ∉ validMoves ∧
      (validate_move "lizard" GameState.init).1 =
        ⟨false, pyLower (pyStrip "lizard"),
          "Invalid move \x27" ++ pyLower (pyStrip "lizard") ++
            "\x27. Valid moves: rock, paper, scissors, bomb"⟩) ∧
    (validate_move "  ROCK " GameState.init).1 = ⟨true, "rock", "Valid move"⟩ :=
  ⟨⟨by decide, (validate_move_spec "lizard" GameState.init).2.1 (by decide)⟩,
   (validate_move_spec "ignored" GameState.init).2.2.2⟩

/-- C10: `validate_move` never touches the game state: the state it was
given comes back unchanged on every path, accepting or rejecting. -/
theorem validate_move_preserves_state (input : String) (s : GameState) :
    (validate_move input s).2 = s := by
  simp only [validate_move]
  split_ifs <;> rfl

end RPSPlus
